import Mathlib

/-!
Shallow embedding of the reporting backend handler
(src/backend/src/index.ts) of the globalhmd repository.

The handler is a token-caching authenticating proxy: it validates an
inbound Basic credential pair, maintains a single cached upstream token
with a 25-minute TTL, and forwards requests to the upstream API.

Modelling conventions:
  * JavaScript strings are Lean `String`s; the JS `startsWith` / `slice` /
    `split` operations are modelled on the underlying character list.
  * `Date.now()` is passed in explicitly: `now` is the clock value at the
    TTL check, `tStore` the (possibly later) value at the cache write.
  * The Node base64 decoder (`Buffer.from(_, 'base64')`) is an external
    library, so it enters the model as an abstract parameter
    `b64 : String → String` mapping the encoded payload to its decoding.
  * `process.env` enters as an explicit record of five optional strings.
  * The upstream API (node-fetch) enters as an oracle `Upstream` giving
    the response to the authentication call and to the forwarded call;
    the model counts how many of each call the handler issues and records
    the forwarded request it builds.
  * Thrown JS errors become an `AppError` value carried in `Except`.
-/

namespace GlobalHMD

/-- JS `s.startsWith(pre)`, on the character-list model of strings. -/
def jsStartsWith (s pre : String) : Bool :=
  decide (s.data.take pre.data.length = pre.data)

/-- JS `s.slice(n)` (drop the first `n` characters). -/
def jsSliceFrom (n : Nat) (s : String) : String :=
  (s.data.drop n).asString

/-- JS `String.prototype.split` with a single-character separator:
splits on every occurrence, keeping empty segments, never returning an
empty list. -/
def splitOnChar (c : Char) : List Char → List (List Char)
  | [] => [[]]
  | x :: xs =>
    if x = c then [] :: splitOnChar c xs
    else
      match splitOnChar c xs with
      | [] => [[x]]
      | h :: t => (x :: h) :: t

/-- JS `s.split(c)` lifted back to strings. -/
def jsSplit (c : Char) (s : String) : List String :=
  (splitOnChar c s.data).map List.asString

/-- Source constant `TOKEN_TTL_MS = 1000 * 60 * 25`. -/
def TOKEN_TTL_MS : Nat := 1000 * 60 * 25

/-- Base-URL-relative path of the authentication endpoint. -/
def AUTH_ENDPOINT : String := "/api/v1/user/authenticate"

/-- The five validated environment values (`REQUIRED_ENV`, zod schema). -/
structure Env where
  CURASEV_USERNAME : String
  CURASEV_PASSWORD : String
  CURASEV_CLIENT_KEY : String
  BASIC_AUTH_USER : String
  BASIC_AUTH_PASS : String
deriving DecidableEq, Repr

/-- The raw `process.env` slice the schema looks at: each of the five
variables is either absent (`none`) or present with some string value. -/
structure EnvInput where
  CURASEV_USERNAME : Option String
  CURASEV_PASSWORD : Option String
  CURASEV_CLIENT_KEY : Option String
  BASIC_AUTH_USER : Option String
  BASIC_AUTH_PASS : Option String
deriving DecidableEq, Repr

/-- Model of `cachedToken`: the single mutable slot `{token, fetchedAt} | null`. -/
structure CachedToken where
  token : String
  fetchedAt : Nat
deriving DecidableEq, Repr

/-- The token cache state (`null` becomes `none`). -/
abbrev Cache := Option CachedToken

/-- The parsed JSON body of the upstream authentication response,
abstracted to the one path the code reads:
`json?.data?.patient?.currentToken` (absent field becomes `none`). -/
structure AuthJson where
  currentToken : Option String
deriving DecidableEq, Repr

/-- The `details` diagnostic attached to a thrown error: either raw
upstream body text or the parsed authentication JSON. -/
inductive ErrDetails where
  | text (s : String)
  | jsonDetail (j : AuthJson)
deriving DecidableEq, Repr

/-- A thrown JS error as the handler sees it: `message`, an optional
`status` property, and an optional `details` property. -/
structure AppError where
  message : String
  status : Option Nat
  details : Option ErrDetails
deriving DecidableEq, Repr

/-- One upstream (node-fetch) response: status, body text, declared
content type, and — for the authentication call — its parsed JSON. -/
structure UpstreamResp where
  status : Nat
  text : String
  contentType : Option String
  authJson : AuthJson
deriving DecidableEq, Repr

/-- Model of `response.ok`: status in the 200–299 range. -/
def respOk (r : UpstreamResp) : Bool :=
  200 ≤ r.status && r.status < 300

/-- The upstream oracle: what the upstream would answer to the
authentication call and to the forwarded call. -/
structure Upstream where
  auth : UpstreamResp
  fwd : UpstreamResp
deriving DecidableEq, Repr

/-- The JSON body the handler writes back. -/
inductive OutBody where
  | jsonErr (error : String) (details : Option ErrDetails)
  | loginOk (token : String) (fetchedAt : Nat)
  | text (s : String)
deriving DecidableEq, Repr

/-- The HTTP response written back to the caller: status, the headers
the handler sets explicitly, and the body. -/
structure HttpResponse where
  status : Nat
  headers : List (String × String)
  body : OutBody
deriving DecidableEq, Repr

/-- The request `proxyRequest` issues upstream (path with query, method,
headers, optional body). -/
structure FwdReq where
  path : String
  method : String
  headers : List (String × String)
  body : Option String
deriving DecidableEq, Repr

/-- The inbound `req.body` as Vercel delivers it: absent (undefined or
null), a raw string, or a parsed structured value, the latter carried
with its JS truthiness and its `JSON.stringify` rendering. -/
inductive ReqBody where
  | absent
  | str (s : String)
  | parsed (truthy : Bool) (stringified : String)
deriving DecidableEq, Repr

/-- The inbound request: method, parsed pathname and query string (the
`new URL` parse), the `Authorization` header, and the body. -/
structure Req where
  method : String
  pathname : String
  search : String
  authorization : Option String
  body : ReqBody
deriving DecidableEq, Repr

/-- The two fixed logical routes of the `routes` record. -/
inductive Route where
  | login
  | downloadHistory
deriving DecidableEq, Repr

/-- Helper for `getEnv`: zod `safeParse` of the five required variables. A variable
fails when absent or empty (`min(1)`); the failing names are joined with
a comma into the error's `details`. -/
def missingEnvNames (p : EnvInput) : List String :=
  (if p.CURASEV_USERNAME.getD "" = "" then ["CURASEV_USERNAME"] else []) ++
  (if p.CURASEV_PASSWORD.getD "" = "" then ["CURASEV_PASSWORD"] else []) ++
  (if p.CURASEV_CLIENT_KEY.getD "" = "" then ["CURASEV_CLIENT_KEY"] else []) ++
  (if p.BASIC_AUTH_USER.getD "" = "" then ["BASIC_AUTH_USER"] else []) ++
  (if p.BASIC_AUTH_PASS.getD "" = "" then ["BASIC_AUTH_PASS"] else [])

/-- Source `getEnv()`: returns the validated `Env` or throws a status-500 error
listing the missing variable names in `details`. -/
def getEnv (p : EnvInput) : Except AppError Env :=
  if missingEnvNames p = [] then
    .ok ⟨p.CURASEV_USERNAME.getD "", p.CURASEV_PASSWORD.getD "",
      p.CURASEV_CLIENT_KEY.getD "", p.BASIC_AUTH_USER.getD "",
      p.BASIC_AUTH_PASS.getD ""⟩
  else
    .error ⟨"Missing environment variables", some 500,
      some (.text (String.intercalate ", " (missingEnvNames p)))⟩

/-- Source `throwUnauthorized()`: the status-401 error. -/
def unauthorizedErr : AppError := ⟨"Unauthorized", some 401, none⟩

/-- Source `assertBasicAuth(req, env)`: requires an `Authorization` header with
the `Basic ` scheme, base64-decodes the payload (decoder abstract),
splits the decoding on every colon, and compares segment 0 as user and
segment 1 as password against the configured pair. -/
def assertBasicAuth (b64 : String → String) (header : Option String)
    (env : Env) : Except AppError Unit :=
  match header with
  | none => .error unauthorizedErr
  | some h =>
    if jsStartsWith h "Basic " = false then .error unauthorizedErr
    else
      let decoded := b64 (jsSliceFrom 6 h)
      let parts := jsSplit ':' decoded
      let user := parts.headD ""
      let pass := parts.get? 1
      if user ≠ env.BASIC_AUTH_USER ∨ pass ≠ some env.BASIC_AUTH_PASS then
        .error unauthorizedErr
      else .ok ()

/-- Source `fetchCurasev`: issues one upstream call; on a non-ok status throws
an error carrying the upstream status and the raw body text as
`details`, otherwise returns the response. -/
def fetchCurasev (r : UpstreamResp) : Except AppError UpstreamResp :=
  if respOk r then .ok r
  else
    .error ⟨"Curasev API error: " ++ toString r.status, some r.status,
      some (.text r.text)⟩

/-- JS truthiness of the extracted `currentToken` value (`undefined` and
the empty string are falsy). -/
def tokenTruthy : Option String → Bool
  | none => false
  | some s => s ≠ ""

/-- Result of one `getToken` run: the returned token or thrown error,
the cache slot afterwards, and how many upstream authentication calls
were made. -/
structure TokenOut where
  result : Except AppError String
  cache : Cache
  authCalls : Nat
deriving Repr

/-- Source `getToken(env)`: return the cached token if it is strictly younger
than `TOKEN_TTL_MS`; otherwise authenticate upstream, extract
`json.data.patient.currentToken`, throw a 502 carrying the parsed JSON
if it is missing or falsy, and otherwise overwrite the cache with the
new token and the current timestamp `tStore` and return it. -/
def getToken (cache : Cache) (now tStore : Nat) (auth : UpstreamResp) :
    TokenOut :=
  match cache with
  | some c =>
    if now - c.fetchedAt < TOKEN_TTL_MS then ⟨.ok c.token, some c, 0⟩
    else getTokenRefresh cache tStore auth
  | none => getTokenRefresh cache tStore auth
where
  /-- The refresh path: one upstream authentication call. -/
  getTokenRefresh (cache : Cache) (tStore : Nat) (auth : UpstreamResp) :
      TokenOut :=
    match fetchCurasev auth with
    | .error e => ⟨.error e, cache, 1⟩
    | .ok resp =>
      let j := resp.authJson
      match j.currentToken with
      | some t =>
        if t ≠ "" then ⟨.ok t, some ⟨t, tStore⟩, 1⟩
        else
          ⟨.error ⟨"Curasev authentication failed: missing token",
            some 502, some (.jsonDetail j)⟩, cache, 1⟩
      | none =>
        ⟨.error ⟨"Curasev authentication failed: missing token",
          some 502, some (.jsonDetail j)⟩, cache, 1⟩

/-- Source `buildSearch(req)`: the query string of the parsed inbound URL. -/
def buildSearch (req : Req) : String := req.search

/-- Source `getForwardBody(req)`: no body for GET/HEAD; a string body is
forwarded as-is; a falsy body is omitted; a structured body is
`JSON.stringify`-ed. -/
def getForwardBody (req : Req) : Option String :=
  if req.method = "GET" ∨ req.method = "HEAD" then none
  else
    match req.body with
    | .str s => some s
    | .absent => none
    | .parsed truthy stringified => if truthy then some stringified else none

/-- Result of running one route handler: the response it wrote or the
error it threw, the cache afterwards, the number of upstream
authentication and forwarded calls, and the forwarded request if one
was issued. -/
structure StepOut where
  result : Except AppError HttpResponse
  cache : Cache
  authCalls : Nat
  fwdCalls : Nat
  fwdReq : Option FwdReq
deriving Repr

/-- Source `proxyRequest(req, res, env, curasevPath)`: guard, ensure a token,
build the downstream request (query copied verbatim, fresh headers,
forward body), issue it, and relay status / content type (JSON default)
/ body text. -/
def proxyRequest (b64 : String → String) (env : Env) (cache : Cache)
    (now tStore : Nat) (up : Upstream) (req : Req) (curasevPath : String) :
    StepOut :=
  match assertBasicAuth b64 req.authorization env with
  | .error e => ⟨.error e, cache, 0, 0, none⟩
  | .ok _ =>
    let t := getToken cache now tStore up.auth
    match t.result with
    | .error e => ⟨.error e, t.cache, t.authCalls, 0, none⟩
    | .ok token =>
      let search := buildSearch req
      let downstreamHeaders : List (String × String) :=
        [("Authorization", "Bearer " ++ token),
         ("clientkey", env.CURASEV_CLIENT_KEY),
         ("Content-Type", "application/json")]
      let body := getForwardBody req
      let fr : FwdReq := ⟨curasevPath ++ search, req.method,
        downstreamHeaders, body⟩
      match fetchCurasev up.fwd with
      | .error e => ⟨.error e, t.cache, t.authCalls, 1, some fr⟩
      | .ok resp =>
        let contentType := resp.contentType.getD "application/json"
        ⟨.ok ⟨resp.status, [("Content-Type", contentType)], .text resp.text⟩,
          t.cache, t.authCalls, 1, some fr⟩

/-- The `'/api/auth/login'` route handler: guard, ensure a token, answer
200 with the token and the cache's fetch time. -/
def loginRoute (b64 : String → String) (env : Env) (cache : Cache)
    (now tStore : Nat) (up : Upstream) (req : Req) : StepOut :=
  match assertBasicAuth b64 req.authorization env with
  | .error e => ⟨.error e, cache, 0, 0, none⟩
  | .ok _ =>
    let t := getToken cache now tStore up.auth
    match t.result with
    | .error e => ⟨.error e, t.cache, t.authCalls, 0, none⟩
    | .ok token =>
      let fetchedAt :=
        match t.cache with
        | some c => c.fetchedAt
        | none => tStore
      ⟨.ok ⟨200, [], .loginOk token fetchedAt⟩, t.cache, t.authCalls, 0, none⟩

/-- The upstream path the download-history route forwards to. -/
def DOWNLOAD_HISTORY_PATH : String := "/api/v1/report/get-all-download-history"

/-- Source `resolveRoute(req)`: look the parsed pathname up in the two-entry
`routes` record. -/
def resolveRoute (pathname : String) : Option Route :=
  if pathname = "/api/auth/login" then some .login
  else if pathname = "/api/report/download-history" then some .downloadHistory
  else none

/-- The catch block: status from the error (default 500), the
`WWW-Authenticate` challenge added exactly when that status is 401, and
the `{error, details}` JSON envelope. -/
def errorResponse (e : AppError) : HttpResponse :=
  let status := e.status.getD 500
  { status := status
    headers :=
      if status = 401 then
        [("WWW-Authenticate", "Basic realm=\"Reporting\"")]
      else []
    body := .jsonErr e.message e.details }

/-- Everything observable about one handler invocation: the response
written, the cache afterwards, the upstream call counts, whether the
Credential Guard ran, and the forwarded request if one was issued. -/
structure HandlerOut where
  response : HttpResponse
  cache : Cache
  authCalls : Nat
  fwdCalls : Nat
  guardInvoked : Bool
  fwdReq : Option FwdReq
deriving Repr

/-- The exported `handler`: `getEnv()` runs before the try block, so an
environment failure escapes as `Except.error` without any response
being written; otherwise unknown paths get a 404 and a resolved route
runs under the centralized catch. -/
def handler (b64 : String → String) (penv : EnvInput) (cache : Cache)
    (now tStore : Nat) (up : Upstream) (req : Req) :
    Except AppError HandlerOut :=
  match getEnv penv with
  | .error e => .error e
  | .ok env =>
    match resolveRoute req.pathname with
    | none =>
      .ok ⟨⟨404, [], .jsonErr "Not Found" none⟩, cache, 0, 0, false, none⟩
    | some route =>
      let out :=
        match route with
        | .login => loginRoute b64 env cache now tStore up req
        | .downloadHistory =>
          proxyRequest b64 env cache now tStore up req DOWNLOAD_HISTORY_PATH
      let response :=
        match out.result with
        | .ok r => r
        | .error e => errorResponse e
      .ok ⟨response, out.cache, out.authCalls, out.fwdCalls, true, out.fwdReq⟩

/-- Claim C1: whenever a cached token exists and its age (current time
minus fetch time) is strictly below the 25-minute TTL, `getToken`
returns the cached token, performs zero upstream calls, and leaves the
cache unchanged. -/
theorem getToken_fresh_cache_hit (c : CachedToken) (now tStore : Nat)
    (auth : UpstreamResp) (h : now - c.fetchedAt < TOKEN_TTL_MS) :
    getToken (some c) now tStore auth = ⟨.ok c.token, some c, 0⟩ := by
  simp [getToken, h]

/-- Witness for C1: a concrete fresh cache hit. -/
theorem getToken_fresh_cache_hit_witness :
    getToken (some ⟨"tok", 100⟩) 200 300
        ⟨200, "", none, ⟨some "other"⟩⟩ = ⟨.ok "tok", some ⟨"tok", 100⟩, 0⟩ :=
  getToken_fresh_cache_hit ⟨"tok", 100⟩ 200 300 ⟨200, "", none, ⟨some "other"⟩⟩
    (by decide)

/-- Claim C2: when the cache is absent or the cached token's age is at
or beyond the TTL, `getToken` performs exactly one upstream
authentication call, and, when that call succeeds with a truthy token,
it overwrites the cache with the new token and the current timestamp
and returns that token. -/
theorem getToken_stale_refreshes (cache : Cache) (now tStore : Nat)
    (auth : UpstreamResp)
    (hstale : ∀ c, cache = some c → TOKEN_TTL_MS ≤ now - c.fetchedAt) :
    (getToken cache now tStore auth).authCalls = 1 ∧
    (∀ t, respOk auth = true → auth.authJson.currentToken = some t →
      t ≠ "" →
      (getToken cache now tStore auth).result = .ok t ∧
      (getToken cache now tStore auth).cache = some ⟨t, tStore⟩) := by
  have hbr : getToken cache now tStore auth =
      getToken.getTokenRefresh cache tStore auth := by
    match cache with
    | none => simp [getToken]
    | some c =>
      have := hstale c rfl
      simp [getToken, Nat.not_lt.mpr this]
  rw [hbr]
  unfold getToken.getTokenRefresh
  refine ⟨?_, ?_⟩
  · unfold fetchCurasev
    cases hok : respOk auth with
    | false => simp
    | true =>
      simp only [if_pos hok]
      cases htok : auth.authJson.currentToken with
      | none => simp [htok]
      | some t =>
        by_cases ht : t = "" <;> simp [htok, ht]
  · intro t hok htok ht
    unfold fetchCurasev
    simp [hok, htok, ht]

/-- Witness for C2: an expired cache entry, a successful upstream
authentication answering token `"new"`, stored at time `5000`. -/
theorem getToken_stale_refreshes_witness :
    (getToken (some ⟨"old", 0⟩) 1500000 5000
        ⟨200, "", none, ⟨some "new"⟩⟩).authCalls = 1 ∧
    (getToken (some ⟨"old", 0⟩) 1500000 5000
        ⟨200, "", none, ⟨some "new"⟩⟩).result = .ok "new" ∧
    (getToken (some ⟨"old", 0⟩) 1500000 5000
        ⟨200, "", none, ⟨some "new"⟩⟩).cache = some ⟨"new", 5000⟩ := by
  have h := getToken_stale_refreshes (some ⟨"old", 0⟩) 1500000 5000
    ⟨200, "", none, ⟨some "new"⟩⟩
    (by intro c hc; cases hc; decide)
  have h2 := h.2 "new" (by decide) rfl (by decide)
  exact ⟨h.1, h2.1, h2.2⟩

/-- Claim C3: when a refresh is due and the upstream authentication
response has a success status but no token at
`data.patient.currentToken`, `getToken` fails with the 502
missing-token error carrying the parsed response body as `details`,
and the cache is left exactly as it was. -/
theorem getToken_missing_token_502 (cache : Cache) (now tStore : Nat)
    (auth : UpstreamResp)
    (hstale : ∀ c, cache = some c → TOKEN_TTL_MS ≤ now - c.fetchedAt)
    (hok : respOk auth = true)
    (hmiss : auth.authJson.currentToken = none) :
    getToken cache now tStore auth =
      ⟨.error ⟨"Curasev authentication failed: missing token", some 502,
        some (.jsonDetail auth.authJson)⟩, cache, 1⟩ := by
  have hbr : getToken cache now tStore auth =
      getToken.getTokenRefresh cache tStore auth := by
    match cache with
    | none => simp [getToken]
    | some c =>
      have := hstale c rfl
      simp [getToken, Nat.not_lt.mpr this]
  rw [hbr]
  unfold getToken.getTokenRefresh fetchCurasev
  simp [hok, hmiss]

/-- Witness for C3: empty cache, upstream answers 200 with
`{data:{patient:{}}}` (no `currentToken`). -/
theorem getToken_missing_token_502_witness :
    getToken none 0 0 ⟨200, "\x7b\x7d", none, ⟨none⟩⟩ =
      ⟨.error ⟨"Curasev authentication failed: missing token", some 502,
        some (.jsonDetail ⟨none⟩)⟩, none, 1⟩ :=
  getToken_missing_token_502 none 0 0 ⟨200, "\x7b\x7d", none, ⟨none⟩⟩
    (by intro c hc; cases hc) (by decide) rfl

/-- Claim C8: the forwarded body is absent for GET and HEAD; for other
methods, a raw-string inbound body is forwarded unchanged, an empty
(absent) body is omitted entirely, and a structured (truthy parsed)
body is forwarded as its JSON serialization. -/
theorem getForwardBody_spec (req : Req) :
    ((req.method = "GET" ∨ req.method = "HEAD") →
      getForwardBody req = none) ∧
    (req.method ≠ "GET" → req.method ≠ "HEAD" →
      (∀ s, req.body = .str s → getForwardBody req = some s) ∧
      (req.body = .absent → getForwardBody req = none) ∧
      (∀ s, req.body = .parsed true s → getForwardBody req = some s)) := by
  constructor
  · intro h
    simp [getForwardBody, h]
  · intro h1 h2
    refine ⟨?_, ?_, ?_⟩
    · intro s hs
      simp [getForwardBody, h1, h2, hs]
    · intro hs
      simp [getForwardBody, h1, h2, hs]
    · intro s hs
      simp [getForwardBody, h1, h2, hs]

/-- Witness for C8: a GET request's body is dropped; a POST with a raw
string body forwards it unchanged; a POST with no body omits it; a POST
with a structured body forwards its serialization. -/
theorem getForwardBody_spec_witness :
    getForwardBody ⟨"GET", "/p", "", none, .str "x"⟩ = none ∧
    getForwardBody ⟨"POST", "/p", "", none, .str "raw"⟩ = some "raw" ∧
    getForwardBody ⟨"POST", "/p", "", none, .absent⟩ = none ∧
    getForwardBody ⟨"POST", "/p", "", none, .parsed true "\x7b\x7d"⟩ =
      some "\x7b\x7d" := by
  refine ⟨?_, ?_, ?_, ?_⟩
  · exact (getForwardBody_spec ⟨"GET", "/p", "", none, .str "x"⟩).1
      (Or.inl rfl)
  · exact ((getForwardBody_spec ⟨"POST", "/p", "", none, .str "raw"⟩).2
      (by decide) (by decide)).1 "raw" rfl
  · exact ((getForwardBody_spec ⟨"POST", "/p", "", none, .absent⟩).2
      (by decide) (by decide)).2.1 rfl
  · exact ((getForwardBody_spec
      ⟨"POST", "/p", "", none, .parsed true "\x7b\x7d"⟩).2
      (by decide) (by decide)).2.2 "\x7b\x7d" rfl

/-- Claim C7: when the environment is valid and the inbound pathname is
not one of the two fixed routes, the handler answers 404 with the
`Not Found` JSON body, without invoking the Credential Guard and
without any upstream call, leaving the cache unchanged. -/
theorem handler_unknown_path_404 (b64 : String → String) (penv : EnvInput)
    (env : Env) (cache : Cache) (now tStore : Nat) (up : Upstream) (req : Req)
    (henv : getEnv penv = .ok env)
    (hroute : resolveRoute req.pathname = none) :
    handler b64 penv cache now tStore up req =
      .ok ⟨⟨404, [], .jsonErr "Not Found" none⟩, cache, 0, 0, false, none⟩ := by
  simp [handler, henv, hroute]

/-- Witness for C7: a concrete request for `/api/foo`. -/
theorem handler_unknown_path_404_witness :
    handler id ⟨some "cu", some "cp", some "ck", some "bu", some "bp"⟩
        none 0 0 ⟨⟨200, "", none, ⟨none⟩⟩, ⟨200, "", none, ⟨none⟩⟩⟩
        ⟨"GET", "/api/foo", "", none, .absent⟩ =
      .ok ⟨⟨404, [], .jsonErr "Not Found" none⟩, none, 0, 0, false, none⟩ :=
  handler_unknown_path_404 id
    ⟨some "cu", some "cp", some "ck", some "bu", some "bp"⟩
    ⟨"cu", "cp", "ck", "bu", "bp"⟩ none 0 0
    ⟨⟨200, "", none, ⟨none⟩⟩, ⟨200, "", none, ⟨none⟩⟩⟩
    ⟨"GET", "/api/foo", "", none, .absent⟩ rfl rfl

/-- Claim C9 (code behavior at the failing input): with
`CURASEV_USERNAME` unset, `handler` does not write any HTTP response at
all — `getEnv()` runs before the try block, so the status-500 error
listing the missing names escapes the function instead of reaching the
centralized catch that writes the error envelope. -/
theorem handler_missing_env_escapes :
    handler id ⟨none, some "cp", some "ck", some "bu", some "bp"⟩
        none 0 0 ⟨⟨200, "", none, ⟨none⟩⟩, ⟨200, "", none, ⟨none⟩⟩⟩
        ⟨"GET", "/api/auth/login", "", none, .absent⟩ =
      .error ⟨"Missing environment variables", some 500,
        some (.text "CURASEV_USERNAME")⟩ := rfl

/-- A successful `fetchCurasev` means the status was in the 2xx range
and the response is passed through unchanged. -/
theorem fetchCurasev_ok (r r' : UpstreamResp) (h : fetchCurasev r = .ok r') :
    respOk r = true ∧ r' = r := by
  unfold fetchCurasev at h
  split at h
  · exact ⟨by assumption, by injection h with h; exact h.symm⟩
  · exact absurd h (by simp)

/-- The catch block attaches the `WWW-Authenticate` challenge to every
401 response it writes. -/
theorem errorResponse_401_challenge (e : AppError)
    (h : (errorResponse e).status = 401) :
    ("WWW-Authenticate", "Basic realm=\"Reporting\"") ∈
      (errorResponse e).headers := by
  simp only [errorResponse] at h ⊢
  simp [h]

/-- A login route success is always a 200 response. -/
theorem loginRoute_ok_status (b64 : String → String) (env : Env)
    (cache : Cache) (now tStore : Nat) (up : Upstream) (req : Req)
    (r : HttpResponse)
    (h : (loginRoute b64 env cache now tStore up req).result = .ok r) :
    r.status = 200 := by
  unfold loginRoute at h
  split at h
  · exact absurd h (by simp)
  · dsimp only at h
    split at h
    · exact absurd h (by simp)
    · injection h with h
      rw [← h]

/-- A proxy route success carries a 2xx status (the relayed upstream
success status). -/
theorem proxyRequest_ok_status (b64 : String → String) (env : Env)
    (cache : Cache) (now tStore : Nat) (up : Upstream) (req : Req)
    (p : String) (r : HttpResponse)
    (h : (proxyRequest b64 env cache now tStore up req p).result = .ok r) :
    200 ≤ r.status ∧ r.status < 300 := by
  unfold proxyRequest at h
  split at h
  · exact absurd h (by simp)
  · dsimp only at h
    split at h
    · exact absurd h (by simp)
    · split at h
      · exact absurd h (by simp)
      · rename_i resp heq
        obtain ⟨hok, hr⟩ := fetchCurasev_ok up.fwd resp heq
        injection h with h
        rw [← h]
        subst hr
        simp only [respOk, Bool.and_eq_true, decide_eq_true_eq] at hok
        exact hok

/-- Any of the rejection conditions makes the Credential Guard throw
the Unauthorized error. -/
theorem assertBasicAuth_rejects (b64 : String → String) (env : Env)
    (header : Option String)
    (h : header = none ∨
      (∃ s, header = some s ∧ jsStartsWith s "Basic " = false) ∨
      (∃ s, header = some s ∧ jsStartsWith s "Basic " = true ∧
        ((jsSplit ':' (b64 (jsSliceFrom 6 s))).headD "" ≠
            env.BASIC_AUTH_USER ∨
          (jsSplit ':' (b64 (jsSliceFrom 6 s))).get? 1 ≠
            some env.BASIC_AUTH_PASS))) :
    assertBasicAuth b64 header env = .error unauthorizedErr := by
  rcases h with h | ⟨s, hs, hpre⟩ | ⟨s, hs, hpre, hbad⟩
  · rw [h]; rfl
  · rw [hs]
    simp [assertBasicAuth, hpre]
  · rw [hs]
    unfold assertBasicAuth
    dsimp only
    rw [if_neg (by simp [hpre])]
    exact if_pos hbad

/-- Claim C4, first part: with a valid environment and a resolved
route, a missing header, a non-Basic scheme, or a decoded pair whose
first two colon-segments do not match the configured pair produces
exactly the 401 Unauthorized response with the
`WWW-Authenticate: Basic realm="Reporting"` challenge, with no
upstream call and the cache untouched; second part: every 401 response
the handler writes carries that challenge header. -/
theorem handler_unauthorized_401 :
    (∀ (b64 : String → String) (penv : EnvInput) (env : Env) (cache : Cache)
      (now tStore : Nat) (up : Upstream) (req : Req) (route : Route),
      getEnv penv = .ok env →
      resolveRoute req.pathname = some route →
      (req.authorization = none ∨
        (∃ s, req.authorization = some s ∧
          jsStartsWith s "Basic " = false) ∨
        (∃ s, req.authorization = some s ∧
          jsStartsWith s "Basic " = true ∧
          ((jsSplit ':' (b64 (jsSliceFrom 6 s))).headD "" ≠
              env.BASIC_AUTH_USER ∨
            (jsSplit ':' (b64 (jsSliceFrom 6 s))).get? 1 ≠
              some env.BASIC_AUTH_PASS))) →
      handler b64 penv cache now tStore up req =
        .ok ⟨⟨401, [("WWW-Authenticate", "Basic realm=\"Reporting\"")],
          .jsonErr "Unauthorized" none⟩, cache, 0, 0, true, none⟩) ∧
    (∀ (b64 : String → String) (penv : EnvInput) (cache : Cache)
      (now tStore : Nat) (up : Upstream) (req : Req) (out : HandlerOut),
      handler b64 penv cache now tStore up req = .ok out →
      out.response.status = 401 →
      ("WWW-Authenticate", "Basic realm=\"Reporting\"") ∈
        out.response.headers) := by
  constructor
  · intro b64 penv env cache now tStore up req route henv hroute hbad
    have hrej := assertBasicAuth_rejects b64 env req.authorization hbad
    cases route with
    | login =>
      simp [handler, henv, hroute, loginRoute, hrej, errorResponse,
        unauthorizedErr]
    | downloadHistory =>
      simp [handler, henv, hroute, proxyRequest, hrej, errorResponse,
        unauthorizedErr]
  · intro b64 penv cache now tStore up req out hout hst
    unfold handler at hout
    cases henv : getEnv penv with
    | error e => rw [henv] at hout; exact absurd hout (by simp)
    | ok env =>
      rw [henv] at hout
      cases hroute : resolveRoute req.pathname with
      | none =>
        rw [hroute] at hout
        simp only [Except.ok.injEq] at hout
        subst hout
        simp at hst
      | some route =>
        rw [hroute] at hout
        simp only [Except.ok.injEq] at hout
        subst hout
        cases route with
        | login =>
          dsimp only at hst ⊢
          cases hres : (loginRoute b64 env cache now tStore up req).result with
          | ok r =>
            rw [hres] at hst
            have hst' : r.status = 401 := hst
            have h200 := loginRoute_ok_status b64 env cache now tStore up req
              r hres
            omega
          | error e =>
            rw [hres] at hst
            exact errorResponse_401_challenge e hst
        | downloadHistory =>
          dsimp only at hst ⊢
          cases hres : (proxyRequest b64 env cache now tStore up req
              DOWNLOAD_HISTORY_PATH).result with
          | ok r =>
            rw [hres] at hst
            have hst' : r.status = 401 := hst
            have h2xx := proxyRequest_ok_status b64 env cache now tStore up req
              DOWNLOAD_HISTORY_PATH r hres
            omega
          | error e =>
            rw [hres] at hst
            exact errorResponse_401_challenge e hst

/-- Witness for C4: a concrete request with no `Authorization` header
is answered 401 with the challenge, and that concrete 401 carries the
challenge header. -/
theorem handler_unauthorized_401_witness :
    handler id ⟨some "cu", some "cp", some "ck", some "bu", some "bp"⟩
        none 0 0 ⟨⟨200, "", none, ⟨none⟩⟩, ⟨200, "", none, ⟨none⟩⟩⟩
        ⟨"GET", "/api/auth/login", "", none, .absent⟩ =
      .ok ⟨⟨401, [("WWW-Authenticate", "Basic realm=\"Reporting\"")],
        .jsonErr "Unauthorized" none⟩, none, 0, 0, true, none⟩ ∧
    ("WWW-Authenticate", "Basic realm=\"Reporting\"") ∈
      (HttpResponse.mk 401
        [("WWW-Authenticate", "Basic realm=\"Reporting\"")]
        (.jsonErr "Unauthorized" none)).headers := by
  have h1 := handler_unauthorized_401.1 id
    ⟨some "cu", some "cp", some "ck", some "bu", some "bp"⟩
    ⟨"cu", "cp", "ck", "bu", "bp"⟩ none 0 0
    ⟨⟨200, "", none, ⟨none⟩⟩, ⟨200, "", none, ⟨none⟩⟩⟩
    ⟨"GET", "/api/auth/login", "", none, .absent⟩ .login rfl rfl
    (Or.inl rfl)
  refine ⟨h1, ?_⟩
  exact handler_unauthorized_401.2 id
    ⟨some "cu", some "cp", some "ck", some "bu", some "bp"⟩
    none 0 0 ⟨⟨200, "", none, ⟨none⟩⟩, ⟨200, "", none, ⟨none⟩⟩⟩
    ⟨"GET", "/api/auth/login", "", none, .absent⟩ _ h1 rfl

/-- With an absent or expired cache entry, `getToken` takes the refresh
path. -/
theorem getToken_stale_eq_refresh (cache : Cache) (now tStore : Nat)
    (auth : UpstreamResp)
    (hstale : ∀ c, cache = some c → TOKEN_TTL_MS ≤ now - c.fetchedAt) :
    getToken cache now tStore auth =
      getToken.getTokenRefresh cache tStore auth := by
  match cache with
  | none => simp [getToken]
  | some c =>
    have := hstale c rfl
    simp [getToken, Nat.not_lt.mpr this]

/-- A failed upstream authentication call makes `getToken` rethrow the
upstream error (status and raw body) with the cache untouched. -/
theorem getToken_auth_error (cache : Cache) (now tStore : Nat)
    (auth : UpstreamResp)
    (hstale : ∀ c, cache = some c → TOKEN_TTL_MS ≤ now - c.fetchedAt)
    (hfail : respOk auth = false) :
    getToken cache now tStore auth =
      ⟨.error ⟨"Curasev API error: " ++ toString auth.status,
        some auth.status, some (.text auth.text)⟩, cache, 1⟩ := by
  rw [getToken_stale_eq_refresh cache now tStore auth hstale]
  unfold getToken.getTokenRefresh fetchCurasev
  simp [hfail]

/-- Claim C5: an upstream call answering a non-success status makes the
operation fail with the upstream's status and raw body, and the
caller's HTTP response relays that same status with the body as the
error envelope's `details`. First part: the authentication call, on
either route; second part: the forwarded download-history call. -/
theorem handler_upstream_error_relayed :
    (∀ (b64 : String → String) (penv : EnvInput) (env : Env) (cache : Cache)
      (now tStore : Nat) (up : Upstream) (req : Req) (route : Route),
      getEnv penv = .ok env →
      resolveRoute req.pathname = some route →
      assertBasicAuth b64 req.authorization env = .ok () →
      (∀ c, cache = some c → TOKEN_TTL_MS ≤ now - c.fetchedAt) →
      respOk up.auth = false →
      ∃ out, handler b64 penv cache now tStore up req = .ok out ∧
        out.response.status = up.auth.status ∧
        out.response.body = .jsonErr
          ("Curasev API error: " ++ toString up.auth.status)
          (some (.text up.auth.text)) ∧
        out.authCalls = 1 ∧ out.cache = cache) ∧
    (∀ (b64 : String → String) (penv : EnvInput) (env : Env) (cache : Cache)
      (now tStore : Nat) (up : Upstream) (req : Req) (token : String),
      getEnv penv = .ok env →
      resolveRoute req.pathname = some Route.downloadHistory →
      assertBasicAuth b64 req.authorization env = .ok () →
      (getToken cache now tStore up.auth).result = .ok token →
      respOk up.fwd = false →
      ∃ out, handler b64 penv cache now tStore up req = .ok out ∧
        out.response.status = up.fwd.status ∧
        out.response.body = .jsonErr
          ("Curasev API error: " ++ toString up.fwd.status)
          (some (.text up.fwd.text)) ∧
        out.fwdCalls = 1) := by
  constructor
  · intro b64 penv env cache now tStore up req route henv hroute hassert
      hstale hfail
    have hget := getToken_auth_error cache now tStore up.auth hstale hfail
    have hH : handler b64 penv cache now tStore up req =
        .ok ⟨errorResponse ⟨"Curasev API error: " ++ toString up.auth.status,
          some up.auth.status, some (.text up.auth.text)⟩,
          cache, 1, 0, true, none⟩ := by
      cases route with
      | login => simp [handler, henv, hroute, loginRoute, hassert, hget]
      | downloadHistory =>
        simp [handler, henv, hroute, proxyRequest, hassert, hget]
    exact ⟨_, hH, by simp [errorResponse], by simp [errorResponse], rfl, rfl⟩
  · intro b64 penv env cache now tStore up req token henv hroute hassert
      htok hfail
    have hH : handler b64 penv cache now tStore up req =
        .ok ⟨errorResponse ⟨"Curasev API error: " ++ toString up.fwd.status,
          some up.fwd.status, some (.text up.fwd.text)⟩,
          (getToken cache now tStore up.auth).cache,
          (getToken cache now tStore up.auth).authCalls, 1, true,
          some ⟨DOWNLOAD_HISTORY_PATH ++ req.search, req.method,
            [("Authorization", "Bearer " ++ token),
             ("clientkey", env.CURASEV_CLIENT_KEY),
             ("Content-Type", "application/json")],
            getForwardBody req⟩⟩ := by
      simp [handler, henv, hroute, proxyRequest, hassert, htok, buildSearch,
        fetchCurasev, hfail]
    exact ⟨_, hH, by simp [errorResponse], by simp [errorResponse], rfl⟩

/-- Witness for C5: upstream authentication answering 500 `"down"` is
relayed as a 500 error with `details: "down"`; a forwarded
download-history call answering 503 `"maintenance"` is relayed as a 503
error with `details: "maintenance"`. -/
theorem handler_upstream_error_relayed_witness :
    (∃ out, handler id
      ⟨some "cu", some "cp", some "ck", some "u", some "p"⟩
      none 0 0 ⟨⟨500, "down", none, ⟨none⟩⟩, ⟨200, "", none, ⟨none⟩⟩⟩
      ⟨"GET", "/api/auth/login", "", some "Basic u:p", .absent⟩ = .ok out ∧
      out.response.status = 500 ∧
      out.response.body = .jsonErr "Curasev API error: 500"
        (some (.text "down")) ∧
      out.authCalls = 1 ∧ out.cache = none) ∧
    (∃ out, handler id
      ⟨some "cu", some "cp", some "ck", some "u", some "p"⟩
      (some ⟨"tok", 0⟩) 10 10
      ⟨⟨200, "", none, ⟨none⟩⟩, ⟨503, "maintenance", none, ⟨none⟩⟩⟩
      ⟨"GET", "/api/report/download-history", "", some "Basic u:p",
        .absent⟩ = .ok out ∧
      out.response.status = 503 ∧
      out.response.body = .jsonErr "Curasev API error: 503"
        (some (.text "maintenance")) ∧
      out.fwdCalls = 1) := by
  constructor
  · exact handler_upstream_error_relayed.1 id
      ⟨some "cu", some "cp", some "ck", some "u", some "p"⟩
      ⟨"cu", "cp", "ck", "u", "p"⟩ none 0 0
      ⟨⟨500, "down", none, ⟨none⟩⟩, ⟨200, "", none, ⟨none⟩⟩⟩
      ⟨"GET", "/api/auth/login", "", some "Basic u:p", .absent⟩ .login
      rfl rfl rfl (by intro c hc; cases hc) (by decide)
  · exact handler_upstream_error_relayed.2 id
      ⟨some "cu", some "cp", some "ck", some "u", some "p"⟩
      ⟨"cu", "cp", "ck", "u", "p"⟩ (some ⟨"tok", 0⟩) 10 10
      ⟨⟨200, "", none, ⟨none⟩⟩, ⟨503, "maintenance", none, ⟨none⟩⟩⟩
      ⟨"GET", "/api/report/download-history", "", some "Basic u:p",
        .absent⟩ "tok" rfl rfl rfl rfl (by decide)

/-- Claim C6: on a successful forwarded request, the inbound query
string is appended verbatim to the upstream path, and the response
written back carries the upstream status, the upstream's declared
content type (or `application/json` when none is declared), and the
upstream body text unmodified. -/
theorem handler_proxy_success_relay (b64 : String → String)
    (penv : EnvInput) (env : Env) (cache : Cache) (now tStore : Nat)
    (up : Upstream) (req : Req) (token : String)
    (henv : getEnv penv = .ok env)
    (hroute : resolveRoute req.pathname = some Route.downloadHistory)
    (hassert : assertBasicAuth b64 req.authorization env = .ok ())
    (htok : (getToken cache now tStore up.auth).result = .ok token)
    (hfwd : respOk up.fwd = true) :
    ∃ out, handler b64 penv cache now tStore up req = .ok out ∧
      out.fwdReq = some ⟨DOWNLOAD_HISTORY_PATH ++ req.search, req.method,
        [("Authorization", "Bearer " ++ token),
         ("clientkey", env.CURASEV_CLIENT_KEY),
         ("Content-Type", "application/json")],
        getForwardBody req⟩ ∧
      out.response = ⟨up.fwd.status,
        [("Content-Type", up.fwd.contentType.getD "application/json")],
        .text up.fwd.text⟩ := by
  have hH : handler b64 penv cache now tStore up req =
      .ok ⟨⟨up.fwd.status,
          [("Content-Type", up.fwd.contentType.getD "application/json")],
          .text up.fwd.text⟩,
        (getToken cache now tStore up.auth).cache,
        (getToken cache now tStore up.auth).authCalls, 1, true,
        some ⟨DOWNLOAD_HISTORY_PATH ++ req.search, req.method,
          [("Authorization", "Bearer " ++ token),
           ("clientkey", env.CURASEV_CLIENT_KEY),
           ("Content-Type", "application/json")],
          getForwardBody req⟩⟩ := by
    simp [handler, henv, hroute, proxyRequest, hassert, htok, buildSearch,
      fetchCurasev, hfwd]
  exact ⟨_, hH, rfl, rfl⟩

/-- Witness for C6: a GET with query `?dayDiff=60` is forwarded to the
download-history path with that query, and the upstream's
`200 text/plain "payload"` answer is relayed unchanged. -/
theorem handler_proxy_success_relay_witness :
    ∃ out, handler id
      ⟨some "cu", some "cp", some "ck", some "u", some "p"⟩
      (some ⟨"tok", 0⟩) 10 10
      ⟨⟨200, "", none, ⟨none⟩⟩,
       ⟨200, "payload", some "text/plain", ⟨none⟩⟩⟩
      ⟨"GET", "/api/report/download-history", "?dayDiff=60",
        some "Basic u:p", .absent⟩ = .ok out ∧
      out.fwdReq = some ⟨"/api/v1/report/get-all-download-history?dayDiff=60",
        "GET",
        [("Authorization", "Bearer tok"), ("clientkey", "ck"),
         ("Content-Type", "application/json")], none⟩ ∧
      out.response = ⟨200, [("Content-Type", "text/plain")],
        .text "payload"⟩ := by
  have h := handler_proxy_success_relay id
    ⟨some "cu", some "cp", some "ck", some "u", some "p"⟩
    ⟨"cu", "cp", "ck", "u", "p"⟩ (some ⟨"tok", 0⟩) 10 10
    ⟨⟨200, "", none, ⟨none⟩⟩, ⟨200, "payload", some "text/plain", ⟨none⟩⟩⟩
    ⟨"GET", "/api/report/download-history", "?dayDiff=60",
      some "Basic u:p", .absent⟩ "tok" rfl rfl rfl rfl (by decide)
  simpa using h

/-- The function `splitOnChar` never returns the empty list of segments. -/
theorem splitOnChar_ne_nil (c : Char) (l : List Char) :
    splitOnChar c l ≠ [] := by
  induction l with
  | nil => simp [splitOnChar]
  | cons x xs ih =>
    unfold splitOnChar
    by_cases hx : x = c
    · simp [hx]
    · simp only [if_neg hx]
      cases h : splitOnChar c xs with
      | nil => simp
      | cons a t => simp

/-- No segment produced by `splitOnChar` contains the separator. -/
theorem mem_splitOnChar_not_mem (c : Char) (l l' : List Char)
    (h : l' ∈ splitOnChar c l) : c ∉ l' := by
  induction l generalizing l' with
  | nil =>
    simp [splitOnChar] at h
    subst h; simp
  | cons x xs ih =>
    unfold splitOnChar at h
    by_cases hx : x = c
    · rw [if_pos hx] at h
      rcases List.mem_cons.mp h with h1 | h2
      · subst h1; simp
      · exact ih l' h2
    · rw [if_neg hx] at h
      cases hs : splitOnChar c xs with
      | nil => exact absurd hs (splitOnChar_ne_nil c xs)
      | cons a t =>
        rw [hs] at h
        rcases List.mem_cons.mp h with h1 | h2
        · subst h1
          intro hmem
          rcases List.mem_cons.mp hmem with h3 | h4
          · exact hx h3.symm
          · exact ih a (hs ▸ List.mem_cons_self a t) h4
        · exact ih l' (hs ▸ List.mem_cons_of_mem a h2)

/-- Splitting at the first separator occurrence peels off the prefix as
one segment. -/
theorem splitOnChar_append (c : Char) (l₁ l₂ : List Char) (h : c ∉ l₁) :
    splitOnChar c (l₁ ++ c :: l₂) = l₁ :: splitOnChar c l₂ := by
  induction l₁ with
  | nil => simp [splitOnChar]
  | cons x xs ih =>
    have hx : x ≠ c := fun hxc => h (hxc ▸ List.mem_cons_self x xs)
    have hxs : c ∉ xs := fun hm => h (List.mem_cons_of_mem x hm)
    simp only [List.cons_append]
    conv_lhs => rw [splitOnChar]
    rw [if_neg hx, ih hxs]

/-- String append acts componentwise on the character lists. -/
theorem string_data_append (s t : String) :
    (s ++ t).data = s.data ++ t.data := by
  cases s; cases t; rfl

/-- Rebuilding a string from its character list is the identity. -/
theorem asString_data (s : String) : s.data.asString = s := by
  cases s; rfl

/-- Splitting `u:p:extra` on colons, when `u` and `p` are colon-free,
yields `u` and `p` as the first two segments. -/
theorem jsSplit_colon_concat (u p extra : String)
    (hu : ':' ∉ u.data) (hp : ':' ∉ p.data) :
    jsSplit ':' (u ++ ":" ++ p ++ ":" ++ extra) =
      u :: p :: (splitOnChar ':' extra.data).map List.asString := by
  unfold jsSplit
  have hdata : (u ++ ":" ++ p ++ ":" ++ extra).data =
      u.data ++ ':' :: (p.data ++ ':' :: extra.data) := by
    simp only [string_data_append, List.append_assoc]
    rfl
  rw [hdata, splitOnChar_append _ _ _ hu, splitOnChar_append _ _ _ hp]
  simp [asString_data]

/-- Claim C10: the Credential Guard compares only the first two
colon-segments of the decoded credential string. First part: a decoded
string `user:pass:extra` whose first two segments match the configured
(colon-free) pair is accepted despite the trailing content. Second
part: when the configured inbound password itself contains a colon, no
submitted credential is ever accepted. -/
theorem assertBasicAuth_colon_split :
    (∀ (env : Env) (b64 : String → String) (h extra : String),
      jsStartsWith h "Basic " = true →
      b64 (jsSliceFrom 6 h) =
        env.BASIC_AUTH_USER ++ ":" ++ env.BASIC_AUTH_PASS ++ ":" ++ extra →
      (':' ∉ env.BASIC_AUTH_USER.data) →
      (':' ∉ env.BASIC_AUTH_PASS.data) →
      assertBasicAuth b64 (some h) env = .ok ()) ∧
    (∀ env : Env, ':' ∈ env.BASIC_AUTH_PASS.data →
      ∀ (b64 : String → String) (header : Option String),
        assertBasicAuth b64 header env = .error unauthorizedErr) := by
  constructor
  · intro env b64 h extra hpre hdec hu hp
    unfold assertBasicAuth
    dsimp only
    rw [if_neg (by simp [hpre]), hdec, jsSplit_colon_concat _ _ _ hu hp]
    rw [if_neg (by simp)]
  · intro env hc b64 header
    cases header with
    | none => rfl
    | some h =>
      unfold assertBasicAuth
      dsimp only
      by_cases hpre : jsStartsWith h "Basic " = false
      · rw [if_pos hpre]
      · have hcond :
            (jsSplit ':' (b64 (jsSliceFrom 6 h))).headD "" ≠
              env.BASIC_AUTH_USER ∨
            (jsSplit ':' (b64 (jsSliceFrom 6 h))).get? 1 ≠
              some env.BASIC_AUTH_PASS := by
          right
          cases hg : (jsSplit ':' (b64 (jsSliceFrom 6 h))).get? 1 with
          | none => simp
          | some s =>
            simp only [ne_eq, Option.some.injEq]
            intro hsp
            have hmem := List.get?_mem hg
            unfold jsSplit at hmem
            rcases List.mem_map.mp hmem with ⟨l, hl, hls⟩
            have hnc := mem_splitOnChar_not_mem ':' _ l hl
            apply hnc
            have hld : s.data = l := by rw [← hls]; rfl
            rw [hsp] at hld
            rw [← hld]
            exact hc
        rw [if_neg hpre, if_pos hcond]

/-- Witness for C10: with the pair `u`/`p`, the decoded credential
`u:p:junk` is accepted; with password `p:q`, the correctly encoded
credential `u:p:q` is still rejected. -/
theorem assertBasicAuth_colon_split_witness :
    assertBasicAuth id (some "Basic u:p:junk")
      ⟨"cu", "cp", "ck", "u", "p"⟩ = .ok () ∧
    assertBasicAuth id (some "Basic u:p:q")
      ⟨"cu", "cp", "ck", "u", "p:q"⟩ = .error unauthorizedErr := by
  constructor
  · exact assertBasicAuth_colon_split.1 ⟨"cu", "cp", "ck", "u", "p"⟩ id
      "Basic u:p:junk" "junk" (by decide) rfl (by decide) (by decide)
  · exact assertBasicAuth_colon_split.2 ⟨"cu", "cp", "ck", "u", "p:q"⟩
      (by decide) id (some "Basic u:p:q")

end GlobalHMD
